import Mathlib

/-!
Verification of the Exit Decision Rule Engine of the fund-waterfall-research
repository (`src/streamlit_app.py`, "Exit Decision Calculator" page).

The decision chain (source lines 144-209) is embedded as a pure function
`evaluate` over a record `DecisionInput`; decimal quantities are modelled as
rationals.  The per-rule display expanders (source lines 231-332) are embedded
as `report0` .. `report5` and assembled by `buildResult`.
-/

namespace FundWaterfall

/-- Fund structure radio button: "Commingled Fund" / "Separate Account". -/
inductive FundType
  | commingled
  | separateAccount
deriving DecidableEq, Repr

/-- Fund lifecycle stage selectbox: "Early (Years 1-4)", "Mid (Years 5-7)",
"Late (Years 8-10)". -/
inductive FundStage
  | early
  | mid
  | late
deriving DecidableEq, Repr

/-- The headline recommendation. -/
inductive Decision
  | HOLD
  | EXIT
deriving DecidableEq, Repr

/-- The inputs read by the decision chain.  Conditional fields
(`current_fund_irr`, `target_quartile_cutoff`, `fund_nav`, `would_drag_irr`,
`alternative_irr`, `downside_risk`) are total here; `Valid` constrains them
exactly as the source's widget ranges and sentinel assignments do. -/
structure DecisionInput where
  debt_maturity : Bool
  forward_irr : ℚ
  current_equity : ℚ
  unreturned_capital : ℚ
  fund_type : FundType
  fund_stage : FundStage
  pref_rate : ℚ
  has_alternatives : Bool
  alternative_irr : ℚ
  raising_soon : Bool
  current_fund_irr : ℚ
  target_quartile_cutoff : ℚ
  fund_nav : ℚ
  would_drag_irr : Bool
  peak_market : Bool
  downside_risk : ℚ
deriving DecidableEq, Repr

/-- Widget ranges and sentinel-default structure of the source UI
(lines 55-133): `forward_irr` in 0-30, `current_equity` and
`unreturned_capital` in 0.1-1000, `pref_rate` in 0-15; `alternative_irr`
in 0-30 when `has_alternatives`, sentinel 0 otherwise (line 107);
`raising_soon` forced false for separate accounts (line 124); when
`raising_soon`, `current_fund_irr` and `target_quartile_cutoff` in 0-40 and
`fund_nav` in 1-10000, otherwise `would_drag_irr` false and `fund_nav`
sentinel 0 (lines 120-126); `downside_risk` in 0-50 when `peak_market`. -/
def Valid (i : DecisionInput) : Prop :=
  0 ≤ i.forward_irr ∧ i.forward_irr ≤ 30 ∧
  1/10 ≤ i.current_equity ∧ i.current_equity ≤ 1000 ∧
  1/10 ≤ i.unreturned_capital ∧ i.unreturned_capital ≤ 1000 ∧
  0 ≤ i.pref_rate ∧ i.pref_rate ≤ 15 ∧
  (i.has_alternatives = true → 0 ≤ i.alternative_irr ∧ i.alternative_irr ≤ 30) ∧
  (i.has_alternatives = false → i.alternative_irr = 0) ∧
  (i.fund_type = FundType.separateAccount → i.raising_soon = false) ∧
  (i.raising_soon = true →
    0 ≤ i.current_fund_irr ∧ i.current_fund_irr ≤ 40 ∧
    0 ≤ i.target_quartile_cutoff ∧ i.target_quartile_cutoff ≤ 40 ∧
    1 ≤ i.fund_nav ∧ i.fund_nav ≤ 10000) ∧
  (i.raising_soon = false → i.would_drag_irr = false ∧ i.fund_nav = 0) ∧
  (i.peak_market = true → 0 ≤ i.downside_risk ∧ i.downside_risk ≤ 50)

instance (i : DecisionInput) : Decidable (Valid i) :=
  inferInstanceAs (Decidable (_ ∧ _))

/-- Source line 139: `economic_threshold = pref_rate * (unreturned_capital / current_equity)`. -/
def economic_threshold (i : DecisionInput) : ℚ :=
  i.pref_rate * (i.unreturned_capital / i.current_equity)

/-- Source line 165: `(current_equity / fund_nav) * 100 if fund_nav > 0 else 0`. -/
def asset_pct_of_nav (i : DecisionInput) : ℚ :=
  if 0 < i.fund_nav then (i.current_equity / i.fund_nav) * 100 else 0

/-- Source line 167: `abs(current_fund_irr - target_quartile_cutoff) * 100`. -/
def irr_drag_bps (i : DecisionInput) : ℚ :=
  |i.current_fund_irr - i.target_quartile_cutoff| * 100

/-- Source line 169: `is_material = (asset_pct_of_nav > 10) or (irr_drag_bps > 25)`. -/
def is_material (i : DecisionInput) : Prop :=
  10 < asset_pct_of_nav i ∨ 25 < irr_drag_bps i

instance (i : DecisionInput) : Decidable (is_material i) :=
  inferInstanceAs (Decidable (_ ∨ _))

/-- Source line 181: `two_year_gains = forward_irr * 2`. -/
def two_year_gains (i : DecisionInput) : ℚ :=
  i.forward_irr * 2

/-- Source line 190: `spread = alternative_irr - forward_irr`. -/
def spread (i : DecisionInput) : ℚ :=
  i.alternative_irr - i.forward_irr

/-- Question 0 condition (source line 149): `if debt_maturity`. -/
def cond0 (i : DecisionInput) : Prop :=
  i.debt_maturity = true

instance (i : DecisionInput) : Decidable (cond0 i) :=
  inferInstanceAs (Decidable (_ = _))

/-- Question 1 condition (source line 156): `if forward_irr < economic_threshold`. -/
def cond1 (i : DecisionInput) : Prop :=
  i.forward_irr < economic_threshold i

instance (i : DecisionInput) : Decidable (cond1 i) :=
  inferInstanceAs (Decidable (_ < _))

/-- Question 2 condition (source lines 163-171): the commingled/raising/drag
guard together with the materiality gate. -/
def cond2 (i : DecisionInput) : Prop :=
  i.fund_type = FundType.commingled ∧ i.raising_soon = true ∧
    i.would_drag_irr = true ∧ is_material i

instance (i : DecisionInput) : Decidable (cond2 i) :=
  inferInstanceAs (Decidable (_ ∧ _))

/-- Question 3 condition (source lines 178-182): peak market and
`downside_risk > two_year_gains`. -/
def cond3 (i : DecisionInput) : Prop :=
  i.peak_market = true ∧ two_year_gains i < i.downside_risk

instance (i : DecisionInput) : Decidable (cond3 i) :=
  inferInstanceAs (Decidable (_ ∧ _))

/-- Question 4 condition (source lines 189-203): alternatives available and
the stage-specific spread threshold exceeded (`> 5` early, `> 3` mid/late). -/
def cond4 (i : DecisionInput) : Prop :=
  i.has_alternatives = true ∧
    ((i.fund_stage = FundStage.early ∧ 5 < spread i) ∨
     ((i.fund_stage = FundStage.mid ∨ i.fund_stage = FundStage.late) ∧ 3 < spread i))

instance (i : DecisionInput) : Decidable (cond4 i) :=
  inferInstanceAs (Decidable (_ ∧ _))

/-- The `decision_driver` strings of the source, as symbolic constants:
`debtMaturity` is "Debt Maturity (Structural Constraint)" (line 151),
`belowEconomicThreshold` is "Below Economic Threshold" (line 158),
`irrPreservation` is "IRR Preservation (Material Impact)" (line 173),
`marketTiming` is "Market Timing" (line 184),
`opportunityCost` is "Opportunity Cost" (lines 197 and 202),
`fundamentalsSolid` is "Asset fundamentals solid" (line 208). -/
inductive Driver
  | debtMaturity
  | belowEconomicThreshold
  | irrPreservation
  | marketTiming
  | opportunityCost
  | fundamentalsSolid
deriving DecidableEq, Repr

/-- `decision`, `decision_driver`, `decision_question` as set by the chain. -/
structure ChainResult where
  decision : Decision
  driver : Driver
  question : Nat
deriving DecidableEq, Repr

/-- The pre-calculated decision chain, source lines 144-209.  Each
`if decision is None` block of the source becomes the next `else if`;
Question 5 is the unconditional default. -/
def evaluate (i : DecisionInput) : ChainResult :=
  if cond0 i then ⟨Decision.EXIT, Driver.debtMaturity, 0⟩
  else if cond1 i then ⟨Decision.EXIT, Driver.belowEconomicThreshold, 1⟩
  else if cond2 i then ⟨Decision.EXIT, Driver.irrPreservation, 2⟩
  else if cond3 i then ⟨Decision.EXIT, Driver.marketTiming, 3⟩
  else if cond4 i then ⟨Decision.EXIT, Driver.opportunityCost, 4⟩
  else ⟨Decision.HOLD, Driver.fundamentalsSolid, 5⟩

/-- Asset type label computed for display in the Question 1 expander
(source lines 241-246). -/
inductive AssetType
  | mature
  | underwater
  | fresh
deriving DecidableEq, Repr

/-- Source lines 241-246: mature if `unreturned_capital < current_equity`,
underwater if `unreturned_capital > current_equity`, fresh otherwise. -/
def asset_type (i : DecisionInput) : AssetType :=
  if i.unreturned_capital < i.current_equity then AssetType.mature
  else if i.current_equity < i.unreturned_capital then AssetType.underwater
  else AssetType.fresh

/-- Rendered outcome of the Question 0 expander (source lines 231-237). -/
inductive Report0
  | mandatoryExit
  | noDebt
deriving DecidableEq, Repr

/-- Source lines 231-237. -/
def report0 (i : DecisionInput) : Report0 :=
  if i.debt_maturity then Report0.mandatoryExit else Report0.noDebt

/-- Rendered outcome of the Question 1 expander (source lines 239-257):
either the exit message (line 253) or the pass message (line 256), each
showing the forward IRR, the threshold and the asset type. -/
inductive Report1
  | exitBelow (fwd thr : ℚ) (ty : AssetType)
  | passAbove (fwd thr : ℚ) (ty : AssetType)
deriving DecidableEq, Repr

/-- Source lines 239-257. -/
def report1 (i : DecisionInput) : Report1 :=
  if i.forward_irr < economic_threshold i then
    Report1.exitBelow i.forward_irr (economic_threshold i) (asset_type i)
  else
    Report1.passAbove i.forward_irr (economic_threshold i) (asset_type i)

/-- Rendered outcome of the Question 2 expander (source lines 260-282):
not-applicable for separate accounts (line 262) or with no near-term raise
(line 264); otherwise, when `would_drag_irr`, the materiality figures are
recomputed and shown (lines 267-279); otherwise the maintains message shows
the current fund IRR and cutoff (line 282). -/
inductive Report2
  | naSeparate
  | naNoRaise
  | material (assetPct irrBps cutoff currentIrr : ℚ)
  | immaterial (assetPct irrBps : ℚ)
  | maintains (currentIrr cutoff : ℚ)
deriving DecidableEq, Repr

/-- Source lines 260-282. -/
def report2 (i : DecisionInput) : Report2 :=
  if i.fund_type = FundType.separateAccount then Report2.naSeparate
  else if i.raising_soon = false then Report2.naNoRaise
  else if i.would_drag_irr = true then
    if is_material i then
      Report2.material (asset_pct_of_nav i) (irr_drag_bps i)
        i.target_quartile_cutoff i.current_fund_irr
    else
      Report2.immaterial (asset_pct_of_nav i) (irr_drag_bps i)
  else
    Report2.maintains i.current_fund_irr i.target_quartile_cutoff

/-- Rendered outcome of the Question 3 expander (source lines 285-297). -/
inductive Report3
  | na
  | exitTiming (downside gains : ℚ)
  | manageable (downside gains : ℚ)
deriving DecidableEq, Repr

/-- Source lines 285-297: not-applicable unless `peak_market`; otherwise
`two_year_gains` is recomputed and compared with `downside_risk`. -/
def report3 (i : DecisionInput) : Report3 :=
  if i.peak_market = false then Report3.na
  else if two_year_gains i < i.downside_risk then
    Report3.exitTiming i.downside_risk (two_year_gains i)
  else
    Report3.manageable i.downside_risk (two_year_gains i)

/-- Rendered outcome of the Question 4 expander (source lines 300-325). -/
inductive Report4
  | na
  | earlyExit (s : ℚ)
  | earlyHold (s : ℚ)
  | midLateExit (s : ℚ)
  | midLateHold (s : ℚ)
deriving DecidableEq, Repr

/-- Source lines 300-325: not-applicable unless `has_alternatives`; otherwise
the spread is recomputed and compared against the stage threshold.  The
source's `elif fund_stage in [Mid, Late]` is the `else` here because
`fund_stage` ranges over exactly the three stages. -/
def report4 (i : DecisionInput) : Report4 :=
  if i.has_alternatives = false then Report4.na
  else if i.fund_stage = FundStage.early then
    (if 5 < spread i then Report4.earlyExit (spread i) else Report4.earlyHold (spread i))
  else
    (if 3 < spread i then Report4.midLateExit (spread i) else Report4.midLateHold (spread i))

/-- Rendered outcome of the Question 5 expander (source lines 328-332). -/
inductive Report5
  | holdAll
  | naDecidedEarlier
deriving DecidableEq, Repr

/-- Source lines 328-332: shows the hold message exactly when the chain's
decision is HOLD. -/
def report5 (d : Decision) : Report5 :=
  if d = Decision.HOLD then Report5.holdAll else Report5.naDecidedEarlier

/-- Everything the calculator page derives from one `DecisionInput`: the
chain result (summary box, lines 214-224) and the six expander outcomes
(lines 231-332). -/
structure DisplayResult where
  chain : ChainResult
  r0 : Report0
  r1 : Report1
  r2 : Report2
  r3 : Report3
  r4 : Report4
  r5 : Report5
deriving DecidableEq, Repr

/-- Assembly of the full rendered result, source lines 144-332.  Note the
expanders recompute their figures from the input, independent of which rule
fired; only `report5` consults the chain's decision. -/
def buildResult (i : DecisionInput) : DisplayResult :=
  ⟨evaluate i, report0 i, report1 i, report2 i, report3 i, report4 i,
    report5 (evaluate i).decision⟩

/-- Replace `forward_irr`, all other fields unchanged. -/
def setForwardIrr (i : DecisionInput) (v : ℚ) : DecisionInput :=
  { i with forward_irr := v }

/-- Replace `current_fund_irr`, all other fields unchanged. -/
def setCurrentFundIrr (i : DecisionInput) (v : ℚ) : DecisionInput :=
  { i with current_fund_irr := v }

/-- Replace `downside_risk`, all other fields unchanged. -/
def setDownsideRisk (i : DecisionInput) (v : ℚ) : DecisionInput :=
  { i with downside_risk := v }

/-- Replace `target_quartile_cutoff`, all other fields unchanged. -/
def setTargetQuartileCutoff (i : DecisionInput) (v : ℚ) : DecisionInput :=
  { i with target_quartile_cutoff := v }

/-- Replace `fund_nav`, all other fields unchanged. -/
def setFundNav (i : DecisionInput) (v : ℚ) : DecisionInput :=
  { i with fund_nav := v }

/-- Replace `would_drag_irr`, all other fields unchanged. -/
def setWouldDragIrr (i : DecisionInput) (b : Bool) : DecisionInput :=
  { i with would_drag_irr := b }

/-- Replace `alternative_irr`, all other fields unchanged. -/
def setAlternativeIrr (i : DecisionInput) (v : ℚ) : DecisionInput :=
  { i with alternative_irr := v }

/-- Field identifiers named by a `ValidationError`. -/
inductive FieldId
  | forwardIrrPct
  | currentEquity
  | unreturnedCapital
  | prefRatePct
  | alternativeIrrPct
  | fundraisingFields
  | fundNav
  | downsideRiskPct
deriving DecidableEq, Repr

/-- Modelled from the spec: the error taxonomy of the Input Normalizer
(spec sections 4.1 and 7), which has no counterpart in
`src/streamlit_app.py` (there the widget min/max constraints prevent
out-of-range values at entry). -/
inductive ValidationError
  | outOfRange (f : FieldId)
  | missingRequired (f : FieldId)
  | nonPositive (f : FieldId)
deriving DecidableEq, Repr

/-- Raw field values as handed to the normalizer; conditionally-required
fields are optional. -/
structure RawInput where
  debtMaturingSoon : Bool
  forwardIrrPct : ℚ
  currentEquity : ℚ
  unreturnedCapital : ℚ
  prefRatePct : ℚ
  fundType : FundType
  fundStage : FundStage
  raisingSoon : Bool
  currentFundIrrPct : Option ℚ
  targetQuartileCutoffPct : Option ℚ
  fundNav : Option ℚ
  wouldDragIrr : Option Bool
  hasAlternatives : Bool
  alternativeIrrPct : Option ℚ
  peakMarket : Bool
  downsideRiskPct : Option ℚ
deriving DecidableEq, Repr

/-- Modelled from the spec: the Input Normalizer contract (spec section 4.1),
absent from `src/streamlit_app.py`.  Fails with `ValidationError` when a
numeric field is outside its declared range (spec section 3 table:
`forwardIrrPct` 0-30, `prefRatePct` 0-15, `downsideRiskPct` 0-50), when
`currentEquity`, `unreturnedCapital` or a required `fundNav` is nonpositive,
or when a conditionally-required field is missing while its guard is true.
On success the raw values are carried over verbatim; a guard-false
conditional field receives the engine's inert sentinel (0 or false),
matching the source's sentinel assignments at lines 107 and 120-126.
`mkInput` is the success record; `normalize` guards it. -/
def mkInput (r : RawInput) : DecisionInput :=
  { debt_maturity := r.debtMaturingSoon
    forward_irr := r.forwardIrrPct
    current_equity := r.currentEquity
    unreturned_capital := r.unreturnedCapital
    fund_type := r.fundType
    fund_stage := r.fundStage
    pref_rate := r.prefRatePct
    has_alternatives := r.hasAlternatives
    alternative_irr := if r.hasAlternatives then r.alternativeIrrPct.getD 0 else 0
    raising_soon := r.raisingSoon
    current_fund_irr := if r.raisingSoon then r.currentFundIrrPct.getD 0 else 0
    target_quartile_cutoff := if r.raisingSoon then r.targetQuartileCutoffPct.getD 0 else 0
    fund_nav := if r.raisingSoon then r.fundNav.getD 0 else 0
    would_drag_irr := if r.raisingSoon then r.wouldDragIrr.getD false else false
    peak_market := r.peakMarket
    downside_risk := if r.peakMarket then r.downsideRiskPct.getD 0 else 0 }

/-- Modelled from the spec: the validation chain of the Input Normalizer
(spec sections 4.1 and 7); see `mkInput`. -/
def normalize (r : RawInput) : Except ValidationError DecisionInput :=
  if ¬ (0 ≤ r.forwardIrrPct ∧ r.forwardIrrPct ≤ 30) then
    Except.error (ValidationError.outOfRange FieldId.forwardIrrPct)
  else if ¬ (0 < r.currentEquity) then
    Except.error (ValidationError.nonPositive FieldId.currentEquity)
  else if ¬ (0 < r.unreturnedCapital) then
    Except.error (ValidationError.nonPositive FieldId.unreturnedCapital)
  else if ¬ (0 ≤ r.prefRatePct ∧ r.prefRatePct ≤ 15) then
    Except.error (ValidationError.outOfRange FieldId.prefRatePct)
  else if r.hasAlternatives = true ∧ r.alternativeIrrPct = none then
    Except.error (ValidationError.missingRequired FieldId.alternativeIrrPct)
  else if r.raisingSoon = true ∧ (r.currentFundIrrPct = none ∨
      r.targetQuartileCutoffPct = none ∨ r.fundNav = none ∨ r.wouldDragIrr = none) then
    Except.error (ValidationError.missingRequired FieldId.fundraisingFields)
  else if r.raisingSoon = true ∧ ¬ (0 < r.fundNav.getD 0) then
    Except.error (ValidationError.nonPositive FieldId.fundNav)
  else if r.peakMarket = true ∧ r.downsideRiskPct = none then
    Except.error (ValidationError.missingRequired FieldId.downsideRiskPct)
  else if r.peakMarket = true ∧
      ¬ (0 ≤ r.downsideRiskPct.getD 0 ∧ r.downsideRiskPct.getD 0 ≤ 50) then
    Except.error (ValidationError.outOfRange FieldId.downsideRiskPct)
  else
    Except.ok (mkInput r)

/-- Modelled from the spec: a raw input is acceptable exactly when every
declared range, positivity and conditional-presence requirement of spec
sections 3 and 4.1 holds. -/
def RawValid (r : RawInput) : Prop :=
  (0 ≤ r.forwardIrrPct ∧ r.forwardIrrPct ≤ 30) ∧
  0 < r.currentEquity ∧
  0 < r.unreturnedCapital ∧
  (0 ≤ r.prefRatePct ∧ r.prefRatePct ≤ 15) ∧
  (r.hasAlternatives = true → r.alternativeIrrPct ≠ none) ∧
  (r.raisingSoon = true →
    r.currentFundIrrPct ≠ none ∧ r.targetQuartileCutoffPct ≠ none ∧
    r.fundNav ≠ none ∧ r.wouldDragIrr ≠ none ∧ 0 < r.fundNav.getD 0) ∧
  (r.peakMarket = true →
    r.downsideRiskPct ≠ none ∧ 0 ≤ r.downsideRiskPct.getD 0 ∧ r.downsideRiskPct.getD 0 ≤ 50)

instance (r : RawInput) : Decidable (RawValid r) :=
  inferInstanceAs (Decidable (_ ∧ _))

/-- `evaluate` composed with the normalizer: the spec's
`evaluate(input) -> DecisionResult | ValidationError` (spec section 6).
A validation error passes through untouched, so no rule runs on it. -/
def evaluateRaw (r : RawInput) : Except ValidationError ChainResult :=
  (normalize r).map evaluate

/-- The normalized record carries the raw values verbatim: every
unconditional field is copied, and every conditional field whose guard is
true equals the wrapped raw value (no default was substituted). -/
def Agrees (r : RawInput) (i : DecisionInput) : Prop :=
  i.debt_maturity = r.debtMaturingSoon ∧
  i.forward_irr = r.forwardIrrPct ∧
  i.current_equity = r.currentEquity ∧
  i.unreturned_capital = r.unreturnedCapital ∧
  i.pref_rate = r.prefRatePct ∧
  i.fund_type = r.fundType ∧
  i.fund_stage = r.fundStage ∧
  i.raising_soon = r.raisingSoon ∧
  i.has_alternatives = r.hasAlternatives ∧
  i.peak_market = r.peakMarket ∧
  (r.hasAlternatives = true → r.alternativeIrrPct = some i.alternative_irr) ∧
  (r.raisingSoon = true →
    r.currentFundIrrPct = some i.current_fund_irr ∧
    r.targetQuartileCutoffPct = some i.target_quartile_cutoff ∧
    r.fundNav = some i.fund_nav ∧
    r.wouldDragIrr = some i.would_drag_irr) ∧
  (r.peakMarket = true → r.downsideRiskPct = some i.downside_risk)

/-- Spec scenario C: forward IRR 11, pref 8, unreturned 20, equity 40
(threshold 4), separate account, no peak market, no alternatives; every rule
passes and the default HOLD fires. -/
def scenarioC : DecisionInput :=
  { debt_maturity := false
    forward_irr := 11
    current_equity := 40
    unreturned_capital := 20
    fund_type := FundType.separateAccount
    fund_stage := FundStage.early
    pref_rate := 8
    has_alternatives := false
    alternative_irr := 0
    raising_soon := false
    current_fund_irr := 0
    target_quartile_cutoff := 0
    fund_nav := 0
    would_drag_irr := false
    peak_market := false
    downside_risk := 0 }

/-- Spec scenario A: debt maturing soon, all else nominal
(forward IRR 11, pref 8, fresh asset). -/
def scenarioA : DecisionInput :=
  { scenarioC with debt_maturity := true, unreturned_capital := 40 }

/-- A second input with `debt_maturity` set whose other fields differ from
`scenarioA` (low forward IRR, peak market with large downside). -/
def scenarioA2 : DecisionInput :=
  { scenarioC with
      debt_maturity := true
      forward_irr := 2
      unreturned_capital := 40
      peak_market := true
      downside_risk := 50 }

/-- Spec scenario B: forward IRR 6 against threshold 8 × (40/40) = 8. -/
def scenarioB : DecisionInput :=
  { scenarioC with forward_irr := 6, unreturned_capital := 40 }

/-- An input reaching Question 2 and firing it: commingled, raising soon,
would drag, asset 40 of NAV 300 (13.3 percent of NAV, material). -/
def scenarioM : DecisionInput :=
  { scenarioC with
      fund_type := FundType.commingled
      raising_soon := true
      would_drag_irr := true
      current_fund_irr := 19
      target_quartile_cutoff := 18
      fund_nav := 300 }

/-- An input reaching Question 4 with spread 15 − 11 = 4 at mid stage. -/
def scenarioS : DecisionInput :=
  { scenarioC with
      has_alternatives := true
      alternative_irr := 15
      fund_stage := FundStage.mid }

/-- A valid input with `pref_rate = 0` and unequal capital figures: the
economic threshold degenerates to 0 = pref rate. -/
def cexC7 : DecisionInput :=
  { scenarioC with pref_rate := 0 }

/-- `scenarioM` with the debt pre-condition set: Question 0 fires, yet the
Question 2 expander still recomputes and shows the materiality figures. -/
def c9A : DecisionInput :=
  { scenarioM with debt_maturity := true }

/-- A raw input whose `forwardIrrPct` is outside its declared 0-30 range. -/
def rBad : RawInput :=
  { debtMaturingSoon := false
    forwardIrrPct := 40
    currentEquity := 40
    unreturnedCapital := 40
    prefRatePct := 8
    fundType := FundType.separateAccount
    fundStage := FundStage.early
    raisingSoon := false
    currentFundIrrPct := none
    targetQuartileCutoffPct := none
    fundNav := none
    wouldDragIrr := none
    hasAlternatives := false
    alternativeIrrPct := none
    peakMarket := false
    downsideRiskPct := none }

/-- An option that is not `none` wraps exactly its `getD` value. -/
lemma opt_eq_some_getD {α : Type} (o : Option α) (d : α) (h : o ≠ none) :
    o = some (o.getD d) := by
  cases o with
  | none => exact absurd rfl h
  | some v => rfl

/-- Two inputs whose rule 0 and rule 1 conditions agree evaluate identically
whenever the firing rule is below 2: the chain never consults later
conditions. -/
lemma evaluate_congr2 (i j : DecisionInput) (h0 : cond0 j ↔ cond0 i)
    (h1 : cond1 j ↔ cond1 i) (hq : (evaluate i).question < 2) :
    evaluate j = evaluate i := by
  by_cases c0 : cond0 i
  · unfold evaluate
    rw [if_pos c0, if_pos (h0.mpr c0)]
  · by_cases c1 : cond1 i
    · unfold evaluate
      rw [if_neg c0, if_neg (fun h => c0 (h0.mp h)), if_pos c1,
        if_pos (h1.mpr c1)]
    · exfalso
      unfold evaluate at hq
      rw [if_neg c0, if_neg c1] at hq
      split_ifs at hq <;> simp_all

/-- Two inputs whose rule 0-2 conditions agree evaluate identically whenever
the firing rule is below 3. -/
lemma evaluate_congr3 (i j : DecisionInput) (h0 : cond0 j ↔ cond0 i)
    (h1 : cond1 j ↔ cond1 i) (h2 : cond2 j ↔ cond2 i)
    (hq : (evaluate i).question < 3) :
    evaluate j = evaluate i := by
  by_cases c0 : cond0 i
  · unfold evaluate
    rw [if_pos c0, if_pos (h0.mpr c0)]
  · by_cases c1 : cond1 i
    · unfold evaluate
      rw [if_neg c0, if_neg (fun h => c0 (h0.mp h)), if_pos c1,
        if_pos (h1.mpr c1)]
    · by_cases c2 : cond2 i
      · unfold evaluate
        rw [if_neg c0, if_neg (fun h => c0 (h0.mp h)), if_neg c1,
          if_neg (fun h => c1 (h1.mp h)), if_pos c2, if_pos (h2.mpr c2)]
      · exfalso
        unfold evaluate at hq
        rw [if_neg c0, if_neg c1, if_neg c2] at hq
        split_ifs at hq <;> simp_all

/-- Two inputs whose rule 0-3 conditions agree evaluate identically whenever
the firing rule is below 4. -/
lemma evaluate_congr4 (i j : DecisionInput) (h0 : cond0 j ↔ cond0 i)
    (h1 : cond1 j ↔ cond1 i) (h2 : cond2 j ↔ cond2 i)
    (h3 : cond3 j ↔ cond3 i) (hq : (evaluate i).question < 4) :
    evaluate j = evaluate i := by
  by_cases c0 : cond0 i
  · unfold evaluate
    rw [if_pos c0, if_pos (h0.mpr c0)]
  · by_cases c1 : cond1 i
    · unfold evaluate
      rw [if_neg c0, if_neg (fun h => c0 (h0.mp h)), if_pos c1,
        if_pos (h1.mpr c1)]
    · by_cases c2 : cond2 i
      · unfold evaluate
        rw [if_neg c0, if_neg (fun h => c0 (h0.mp h)), if_neg c1,
          if_neg (fun h => c1 (h1.mp h)), if_pos c2, if_pos (h2.mpr c2)]
      · by_cases c3 : cond3 i
        · unfold evaluate
          rw [if_neg c0, if_neg (fun h => c0 (h0.mp h)), if_neg c1,
            if_neg (fun h => c1 (h1.mp h)), if_neg c2,
            if_neg (fun h => c2 (h2.mp h)), if_pos c3, if_pos (h3.mpr c3)]
        · exfalso
          unfold evaluate at hq
          rw [if_neg c0, if_neg c1, if_neg c2, if_neg c3] at hq
          split_ifs at hq <;> simp_all

/-- Normalization succeeds with `mkInput` exactly on `RawValid` inputs and
otherwise returns some error. -/
lemma normalize_cases (r : RawInput) :
    (RawValid r ∧ normalize r = Except.ok (mkInput r)) ∨
    (¬ RawValid r ∧ ∃ e, normalize r = Except.error e) := by
  by_cases h1 : 0 ≤ r.forwardIrrPct ∧ r.forwardIrrPct ≤ 30
  case neg =>
    refine Or.inr ⟨fun hv => h1 hv.1,
      ⟨ValidationError.outOfRange FieldId.forwardIrrPct, ?_⟩⟩
    unfold normalize
    rw [if_pos h1]
  by_cases h2 : 0 < r.currentEquity
  case neg =>
    refine Or.inr ⟨fun hv => h2 hv.2.1,
      ⟨ValidationError.nonPositive FieldId.currentEquity, ?_⟩⟩
    unfold normalize
    rw [if_neg (not_not_intro h1), if_pos h2]
  by_cases h3 : 0 < r.unreturnedCapital
  case neg =>
    refine Or.inr ⟨fun hv => h3 hv.2.2.1,
      ⟨ValidationError.nonPositive FieldId.unreturnedCapital, ?_⟩⟩
    unfold normalize
    rw [if_neg (not_not_intro h1), if_neg (not_not_intro h2), if_pos h3]
  by_cases h4 : 0 ≤ r.prefRatePct ∧ r.prefRatePct ≤ 15
  case neg =>
    refine Or.inr ⟨fun hv => h4 hv.2.2.2.1,
      ⟨ValidationError.outOfRange FieldId.prefRatePct, ?_⟩⟩
    unfold normalize
    rw [if_neg (not_not_intro h1), if_neg (not_not_intro h2),
      if_neg (not_not_intro h3), if_pos h4]
  by_cases h5 : r.hasAlternatives = true ∧ r.alternativeIrrPct = none
  case pos =>
    refine Or.inr ⟨fun hv => hv.2.2.2.2.1 h5.1 h5.2,
      ⟨ValidationError.missingRequired FieldId.alternativeIrrPct, ?_⟩⟩
    unfold normalize
    rw [if_neg (not_not_intro h1), if_neg (not_not_intro h2),
      if_neg (not_not_intro h3), if_neg (not_not_intro h4), if_pos h5]
  by_cases h6 : r.raisingSoon = true ∧ (r.currentFundIrrPct = none ∨
      r.targetQuartileCutoffPct = none ∨ r.fundNav = none ∨ r.wouldDragIrr = none)
  case pos =>
    refine Or.inr ⟨fun hv => ?_,
      ⟨ValidationError.missingRequired FieldId.fundraisingFields, ?_⟩⟩
    · obtain ⟨hc, ht, hn, hw, -⟩ := hv.2.2.2.2.2.1 h6.1
      rcases h6.2 with h | h | h | h
      exacts [hc h, ht h, hn h, hw h]
    · unfold normalize
      rw [if_neg (not_not_intro h1), if_neg (not_not_intro h2),
        if_neg (not_not_intro h3), if_neg (not_not_intro h4), if_neg h5,
        if_pos h6]
  by_cases h7 : r.raisingSoon = true ∧ ¬ 0 < r.fundNav.getD 0
  case pos =>
    refine Or.inr ⟨fun hv => h7.2 (hv.2.2.2.2.2.1 h7.1).2.2.2.2,
      ⟨ValidationError.nonPositive FieldId.fundNav, ?_⟩⟩
    unfold normalize
    rw [if_neg (not_not_intro h1), if_neg (not_not_intro h2),
      if_neg (not_not_intro h3), if_neg (not_not_intro h4), if_neg h5,
      if_neg h6, if_pos h7]
  by_cases h8 : r.peakMarket = true ∧ r.downsideRiskPct = none
  case pos =>
    refine Or.inr ⟨fun hv => (hv.2.2.2.2.2.2 h8.1).1 h8.2,
      ⟨ValidationError.missingRequired FieldId.downsideRiskPct, ?_⟩⟩
    unfold normalize
    rw [if_neg (not_not_intro h1), if_neg (not_not_intro h2),
      if_neg (not_not_intro h3), if_neg (not_not_intro h4), if_neg h5,
      if_neg h6, if_neg h7, if_pos h8]
  by_cases h9 : r.peakMarket = true ∧
      ¬ (0 ≤ r.downsideRiskPct.getD 0 ∧ r.downsideRiskPct.getD 0 ≤ 50)
  case pos =>
    refine Or.inr
      ⟨fun hv => h9.2 ⟨(hv.2.2.2.2.2.2 h9.1).2.1, (hv.2.2.2.2.2.2 h9.1).2.2⟩,
       ⟨ValidationError.outOfRange FieldId.downsideRiskPct, ?_⟩⟩
    unfold normalize
    rw [if_neg (not_not_intro h1), if_neg (not_not_intro h2),
      if_neg (not_not_intro h3), if_neg (not_not_intro h4), if_neg h5,
      if_neg h6, if_neg h7, if_neg h8, if_pos h9]
  refine Or.inl ⟨⟨h1, h2, h3, h4,
    fun ha hn => h5 ⟨ha, hn⟩,
    fun hr =>
      ⟨fun hc => h6 ⟨hr, Or.inl hc⟩,
       fun ht => h6 ⟨hr, Or.inr (Or.inl ht)⟩,
       fun hn => h6 ⟨hr, Or.inr (Or.inr (Or.inl hn))⟩,
       fun hw => h6 ⟨hr, Or.inr (Or.inr (Or.inr hw))⟩,
       not_not.mp fun hq => h7 ⟨hr, hq⟩⟩,
    fun hp =>
      ⟨fun hn => h8 ⟨hp, hn⟩,
       (not_not.mp fun hq => h9 ⟨hp, hq⟩).1,
       (not_not.mp fun hq => h9 ⟨hp, hq⟩).2⟩⟩, ?_⟩
  unfold normalize
  rw [if_neg (not_not_intro h1), if_neg (not_not_intro h2),
    if_neg (not_not_intro h3), if_neg (not_not_intro h4), if_neg h5,
    if_neg h6, if_neg h7, if_neg h8, if_neg h9]

/-- C1: for every valid `DecisionInput` the chain returns exactly one
decision, which is HOLD or EXIT, with a firing rule index in 0..5, and
Rule 5 fires with decision HOLD whenever the conditions of rules 0-4 all
failed. -/
theorem C1_totality (i : DecisionInput) (hv : Valid i) :
    ((evaluate i).decision = Decision.HOLD ∨ (evaluate i).decision = Decision.EXIT) ∧
    (evaluate i).question ≤ 5 ∧
    (¬ cond0 i ∧ ¬ cond1 i ∧ ¬ cond2 i ∧ ¬ cond3 i ∧ ¬ cond4 i →
      (evaluate i).decision = Decision.HOLD ∧ (evaluate i).question = 5) := by
  clear hv
  unfold evaluate
  split_ifs with h0 h1 h2 h3 h4 <;> simp_all

/-- Witness for C1 at spec scenario C. -/
theorem C1_totality_witness :
    Valid scenarioC ∧
    (((evaluate scenarioC).decision = Decision.HOLD ∨
      (evaluate scenarioC).decision = Decision.EXIT) ∧
     (evaluate scenarioC).question ≤ 5 ∧
     (¬ cond0 scenarioC ∧ ¬ cond1 scenarioC ∧ ¬ cond2 scenarioC ∧
        ¬ cond3 scenarioC ∧ ¬ cond4 scenarioC →
       (evaluate scenarioC).decision = Decision.HOLD ∧
       (evaluate scenarioC).question = 5)) :=
  ⟨by norm_num [Valid, scenarioC],
   C1_totality scenarioC (by norm_num [Valid, scenarioC])⟩

/-- C2: with `debt_maturity` set, the result is EXIT with firing rule 0
regardless of every other field: any two such valid inputs evaluate
identically. -/
theorem C2_rule0_independence (i j : DecisionInput) (hvi : Valid i) (hvj : Valid j)
    (hi : i.debt_maturity = true) (hj : j.debt_maturity = true) :
    (evaluate i).decision = Decision.EXIT ∧ (evaluate i).question = 0 ∧
    evaluate i = evaluate j := by
  clear hvi hvj
  unfold evaluate cond0
  simp [hi, hj]

/-- Witness for C2 at spec scenario A and a second debt-maturing input. -/
theorem C2_rule0_independence_witness :
    Valid scenarioA ∧ Valid scenarioA2 ∧
    scenarioA.debt_maturity = true ∧ scenarioA2.debt_maturity = true ∧
    ((evaluate scenarioA).decision = Decision.EXIT ∧
     (evaluate scenarioA).question = 0 ∧
     evaluate scenarioA = evaluate scenarioA2) :=
  ⟨by norm_num [Valid, scenarioA, scenarioC],
   by norm_num [Valid, scenarioA2, scenarioC],
   rfl, rfl,
   C2_rule0_independence scenarioA scenarioA2
     (by norm_num [Valid, scenarioA, scenarioC])
     (by norm_num [Valid, scenarioA2, scenarioC]) rfl rfl⟩

/-- C3: with the pre-condition clear, the chain returns EXIT at rule 1
exactly when the forward IRR is strictly below
`pref_rate * (unreturned_capital / current_equity)`. -/
theorem C3_rule1_threshold (i : DecisionInput) (hv : Valid i)
    (h0 : i.debt_maturity = false) :
    ((evaluate i).decision = Decision.EXIT ∧ (evaluate i).question = 1) ↔
      i.forward_irr < i.pref_rate * (i.unreturned_capital / i.current_equity) := by
  clear hv
  have hthr : i.pref_rate * (i.unreturned_capital / i.current_equity) =
      economic_threshold i := rfl
  rw [hthr]
  have h0' : ¬ cond0 i := by simp [cond0, h0]
  unfold evaluate
  rw [if_neg h0']
  split_ifs with h1 h2 h3 h4 <;> simp_all [cond1]

/-- Witness for C3 at spec scenario B: threshold 8 × (40/40) = 8 and
forward IRR 6 give EXIT at rule 1. -/
theorem C3_rule1_threshold_witness :
    Valid scenarioB ∧ scenarioB.debt_maturity = false ∧
    economic_threshold scenarioB = 8 ∧
    ((evaluate scenarioB).decision = Decision.EXIT ∧
     (evaluate scenarioB).question = 1) :=
  ⟨by norm_num [Valid, scenarioB, scenarioC], rfl,
   by norm_num [economic_threshold, scenarioB, scenarioC],
   (C3_rule1_threshold scenarioB (by norm_num [Valid, scenarioB, scenarioC]) rfl).mpr
     (by norm_num [scenarioB, scenarioC])⟩

/-- C4: for a valid input on which rules 0 and 1 did not fire, the chain
returns EXIT at rule 2 exactly when the commingled/raising/drag guard holds
together with the materiality gate
`current_equity / fund_nav * 100 > 10` or `|irr - cutoff| * 100 > 25`;
moreover with `would_drag_irr` false the firing rule is never 2. -/
theorem C4_rule2_materiality (i : DecisionInput) (hv : Valid i)
    (h0 : i.debt_maturity = false)
    (h1 : ¬ i.forward_irr < economic_threshold i) :
    (((evaluate i).decision = Decision.EXIT ∧ (evaluate i).question = 2) ↔
      (i.fund_type = FundType.commingled ∧ i.raising_soon = true ∧
        i.would_drag_irr = true ∧
        (10 < i.current_equity / i.fund_nav * 100 ∨
         25 < |i.current_fund_irr - i.target_quartile_cutoff| * 100))) ∧
    (i.would_drag_irr = false → (evaluate i).question ≠ 2) := by
  obtain ⟨-, -, -, -, -, -, -, -, -, -, -, hrs, -, -⟩ := hv
  have hnav : i.raising_soon = true → 0 < i.fund_nav := fun h =>
    lt_of_lt_of_le one_pos (hrs h).2.2.2.2.1
  have hcond2 : cond2 i ↔
      (i.fund_type = FundType.commingled ∧ i.raising_soon = true ∧
        i.would_drag_irr = true ∧
        (10 < i.current_equity / i.fund_nav * 100 ∨
         25 < |i.current_fund_irr - i.target_quartile_cutoff| * 100)) := by
    unfold cond2 is_material asset_pct_of_nav irr_drag_bps
    constructor
    · rintro ⟨hft, hr, hd, hm⟩
      rw [if_pos (hnav hr)] at hm
      exact ⟨hft, hr, hd, hm⟩
    · rintro ⟨hft, hr, hd, hm⟩
      exact ⟨hft, hr, hd, by rw [if_pos (hnav hr)]; exact hm⟩
  have h0' : ¬ cond0 i := by simp [cond0, h0]
  have h1' : ¬ cond1 i := h1
  constructor
  · rw [← hcond2]
    unfold evaluate
    rw [if_neg h0', if_neg h1']
    by_cases hc2 : cond2 i
    · rw [if_pos hc2]
      simpa using hc2
    · rw [if_neg hc2]
      split_ifs with h3 h4 <;> simp [hc2]
  · intro hd
    unfold evaluate
    split_ifs with a b c d e <;> simp_all [cond2]

/-- Witness for C4 at an input where the guard holds and the asset is 13.3
percent of NAV (material): EXIT at rule 2. -/
theorem C4_rule2_materiality_witness :
    Valid scenarioM ∧ scenarioM.debt_maturity = false ∧
    ¬ scenarioM.forward_irr < economic_threshold scenarioM ∧
    ((evaluate scenarioM).decision = Decision.EXIT ∧
     (evaluate scenarioM).question = 2) :=
  ⟨by norm_num [Valid, scenarioM, scenarioC]; decide, rfl,
   by norm_num [economic_threshold, scenarioM, scenarioC],
   (C4_rule2_materiality scenarioM (by norm_num [Valid, scenarioM, scenarioC]; decide) rfl
       (by norm_num [economic_threshold, scenarioM, scenarioC])).1.mpr
     (by norm_num [scenarioM, scenarioC])⟩

/-- C5: for a valid input reaching rule 4 with alternatives available, the
chain returns EXIT at rule 4 exactly when the spread exceeds the
stage-specific threshold (5 at early stage, 3 at mid/late stage); with
spread exactly 4 this means HOLD at early stage and EXIT at mid/late
stage. -/
theorem C5_rule4_stage (i : DecisionInput) (hv : Valid i)
    (h0 : ¬ cond0 i) (h1 : ¬ cond1 i) (h2 : ¬ cond2 i) (h3 : ¬ cond3 i)
    (ha : i.has_alternatives = true) :
    (((evaluate i).decision = Decision.EXIT ∧ (evaluate i).question = 4) ↔
      ((i.fund_stage = FundStage.early ∧ 5 < spread i) ∨
       ((i.fund_stage = FundStage.mid ∨ i.fund_stage = FundStage.late) ∧
        3 < spread i))) ∧
    (spread i = 4 →
      (i.fund_stage = FundStage.early →
        (evaluate i).decision = Decision.HOLD ∧ (evaluate i).question = 5) ∧
      ((i.fund_stage = FundStage.mid ∨ i.fund_stage = FundStage.late) →
        (evaluate i).decision = Decision.EXIT ∧ (evaluate i).question = 4)) := by
  clear hv
  constructor
  · unfold evaluate
    rw [if_neg h0, if_neg h1, if_neg h2, if_neg h3]
    by_cases hc4 : cond4 i
    · rw [if_pos hc4]
      exact iff_of_true ⟨rfl, rfl⟩ hc4.2
    · rw [if_neg hc4]
      exact iff_of_false (by simp) fun hin => hc4 ⟨ha, hin⟩
  · intro hs
    constructor
    · intro he
      have hnc4 : ¬ cond4 i := by
        rintro ⟨-, ⟨-, h5⟩ | ⟨hml, -⟩⟩
        · rw [hs] at h5
          norm_num at h5
        · rcases hml with hm | hl <;> simp_all
      unfold evaluate
      rw [if_neg h0, if_neg h1, if_neg h2, if_neg h3, if_neg hnc4]
      exact ⟨rfl, rfl⟩
    · intro hml
      have hc4 : cond4 i := ⟨ha, Or.inr ⟨hml, by rw [hs]; norm_num⟩⟩
      unfold evaluate
      rw [if_neg h0, if_neg h1, if_neg h2, if_neg h3, if_pos hc4]
      exact ⟨rfl, rfl⟩

/-- Witness for C5 at a mid-stage input with spread 4: EXIT at rule 4. -/
theorem C5_rule4_stage_witness :
    Valid scenarioS ∧ ¬ cond0 scenarioS ∧ ¬ cond1 scenarioS ∧
    ¬ cond2 scenarioS ∧ ¬ cond3 scenarioS ∧
    scenarioS.has_alternatives = true ∧ spread scenarioS = 4 ∧
    ((evaluate scenarioS).decision = Decision.EXIT ∧
     (evaluate scenarioS).question = 4) :=
  ⟨by norm_num [Valid, scenarioS, scenarioC],
   by norm_num [cond0, scenarioS, scenarioC],
   by norm_num [cond1, economic_threshold, scenarioS, scenarioC],
   by norm_num [cond2, scenarioS, scenarioC],
   by norm_num [cond3, scenarioS, scenarioC],
   rfl,
   by norm_num [spread, scenarioS, scenarioC],
   ((C5_rule4_stage scenarioS (by norm_num [Valid, scenarioS, scenarioC])
        (by norm_num [cond0, scenarioS, scenarioC])
        (by norm_num [cond1, economic_threshold, scenarioS, scenarioC])
        (by norm_num [cond2, scenarioS, scenarioC])
        (by norm_num [cond3, scenarioS, scenarioC]) rfl).2
      (by norm_num [spread, scenarioS, scenarioC])).2 (Or.inl rfl)⟩

/-- C6 counterexample: on the valid input `scenarioA` (debt maturing,
threshold 8) the outcome is a non-Rule-1 EXIT, and lowering the forward IRR
to 6, strictly below the threshold, still does not produce EXIT with firing
rule 1 (Rule 0 keeps firing), contradicting the claim as stated. -/
theorem C6_counterexample :
    Valid scenarioA ∧
    ((evaluate scenarioA).decision = Decision.EXIT ∧
     (evaluate scenarioA).question ≠ 1) ∧
    (6 : ℚ) ≤ scenarioA.forward_irr ∧
    (6 : ℚ) < economic_threshold scenarioA ∧
    ¬ ((evaluate (setForwardIrr scenarioA 6)).decision = Decision.EXIT ∧
       (evaluate (setForwardIrr scenarioA 6)).question = 1) := by
  refine ⟨by norm_num [Valid, scenarioA, scenarioC], ?_, ?_, ?_, ?_⟩
  · norm_num [evaluate, cond0, scenarioA, scenarioC]
  · norm_num [scenarioA, scenarioC]
  · norm_num [economic_threshold, scenarioA, scenarioC]
  · norm_num [evaluate, cond0, setForwardIrr, scenarioA, scenarioC]

/-- C6 amended: provided `debt_maturity` is false, lowering the forward IRR
to any value strictly below the economic threshold yields EXIT with firing
rule 1, and raising the forward IRR never newly produces EXIT with firing
rule 1 (if the raised input fires rule 1, the original already did). -/
theorem C6_monotonicity (i : DecisionInput) (hv : Valid i)
    (h0 : i.debt_maturity = false) (v w : ℚ) :
    (v ≤ i.forward_irr → v < economic_threshold i →
      (evaluate (setForwardIrr i v)).decision = Decision.EXIT ∧
      (evaluate (setForwardIrr i v)).question = 1) ∧
    (i.forward_irr ≤ w →
      (evaluate (setForwardIrr i w)).question = 1 →
      (evaluate i).question = 1) := by
  clear hv
  have hc0v : ¬ cond0 (setForwardIrr i v) := by
    simp [cond0, setForwardIrr, h0]
  have hc0w : ¬ cond0 (setForwardIrr i w) := by
    simp [cond0, setForwardIrr, h0]
  have hc0 : ¬ cond0 i := by simp [cond0, h0]
  constructor
  · intro hdec hlt
    have hc1v : cond1 (setForwardIrr i v) := hlt
    unfold evaluate
    rw [if_neg hc0v, if_pos hc1v]
    exact ⟨rfl, rfl⟩
  · intro hw hq1
    by_cases hc1w : cond1 (setForwardIrr i w)
    · have hlt : cond1 i := lt_of_le_of_lt hw hc1w
      unfold evaluate
      rw [if_neg hc0, if_pos hlt]
    · exfalso
      unfold evaluate at hq1
      rw [if_neg hc0w, if_neg hc1w] at hq1
      split_ifs at hq1 <;> simp_all

/-- Witness for the amended C6 at spec scenario B (threshold 8, forward
IRR 6): lowering to 5 fires rule 1, and raising to 7 fires rule 1 only
because the original input already did. -/
theorem C6_monotonicity_witness :
    Valid scenarioB ∧ scenarioB.debt_maturity = false ∧
    (5 : ℚ) ≤ scenarioB.forward_irr ∧ (5 : ℚ) < economic_threshold scenarioB ∧
    ((evaluate (setForwardIrr scenarioB 5)).decision = Decision.EXIT ∧
     (evaluate (setForwardIrr scenarioB 5)).question = 1) ∧
    scenarioB.forward_irr ≤ 7 ∧
    (evaluate (setForwardIrr scenarioB 7)).question = 1 ∧
    (evaluate scenarioB).question = 1 :=
  ⟨by norm_num [Valid, scenarioB, scenarioC], rfl,
   by norm_num [scenarioB, scenarioC],
   by norm_num [economic_threshold, scenarioB, scenarioC],
   (C6_monotonicity scenarioB (by norm_num [Valid, scenarioB, scenarioC]) rfl 5 7).1
     (by norm_num [scenarioB, scenarioC])
     (by norm_num [economic_threshold, scenarioB, scenarioC]),
   by norm_num [scenarioB, scenarioC],
   by norm_num [evaluate, cond0, cond1, economic_threshold, setForwardIrr,
     scenarioB, scenarioC],
   (C6_monotonicity scenarioB (by norm_num [Valid, scenarioB, scenarioC]) rfl 5 7).2
     (by norm_num [scenarioB, scenarioC])
     (by norm_num [evaluate, cond0, cond1, economic_threshold, setForwardIrr,
       scenarioB, scenarioC])⟩

/-- C7 counterexample: on the valid input `cexC7` with `pref_rate = 0`,
unreturned capital 20 and current equity 40 are positive and unequal, yet
the economic threshold (0) equals the pref rate, contradicting the claim's
"and for no other pair of values". -/
theorem C7_counterexample :
    Valid cexC7 ∧ 0 < cexC7.current_equity ∧ 0 < cexC7.unreturned_capital ∧
    economic_threshold cexC7 = cexC7.pref_rate ∧
    cexC7.unreturned_capital ≠ cexC7.current_equity := by
  refine ⟨by norm_num [Valid, cexC7, scenarioC], ?_, ?_, ?_, ?_⟩ <;>
    norm_num [economic_threshold, cexC7, scenarioC]

/-- C7 amended: with positive equity figures and a nonzero pref rate, the
economic threshold equals the pref rate exactly when the unreturned capital
equals the current equity. -/
theorem C7_threshold_algebra (i : DecisionInput) (hc : 0 < i.current_equity)
    (hu : 0 < i.unreturned_capital) (hp : i.pref_rate ≠ 0) :
    economic_threshold i = i.pref_rate ↔
      i.unreturned_capital = i.current_equity := by
  unfold economic_threshold
  constructor
  · intro h
    rcases mul_right_eq_self₀.mp h with h1 | h1
    · exact (div_eq_one_iff_eq hc.ne').mp h1
    · exact absurd h1 hp
  · intro h
    rw [h, div_self hc.ne', mul_one]

/-- Witness for the amended C7 at spec scenario B: pref rate 8 with equal
capital figures, so the threshold equals the pref rate. -/
theorem C7_threshold_algebra_witness :
    0 < scenarioB.current_equity ∧ 0 < scenarioB.unreturned_capital ∧
    scenarioB.pref_rate ≠ 0 ∧
    (economic_threshold scenarioB = scenarioB.pref_rate ↔
      scenarioB.unreturned_capital = scenarioB.current_equity) :=
  ⟨by norm_num [scenarioB, scenarioC],
   by norm_num [scenarioB, scenarioC],
   by norm_num [scenarioB, scenarioC],
   C7_threshold_algebra scenarioB
     (by norm_num [scenarioB, scenarioC])
     (by norm_num [scenarioB, scenarioC])
     (by norm_num [scenarioB, scenarioC])⟩

/-- C8: a raw input violating a declared range, a conditional-presence
requirement or a positivity requirement normalizes to a `ValidationError`,
so `evaluateRaw` returns the error and no rule runs; and whenever
normalization succeeds, the produced `DecisionInput` carries the raw values
verbatim — no default is substituted for a required field. -/
theorem C8_validation (r : RawInput) :
    (¬ RawValid r → ∃ e, evaluateRaw r = Except.error e) ∧
    (∀ i, normalize r = Except.ok i → Agrees r i) := by
  rcases normalize_cases r with ⟨hval, hok⟩ | ⟨hnval, e, herr⟩
  case inr =>
    constructor
    · intro hnv
      refine ⟨e, ?_⟩
      unfold evaluateRaw
      rw [herr]
      rfl
    · intro i hi
      rw [herr] at hi
      exact absurd hi (by simp)
  constructor
  · intro hnv
    exact absurd hval hnv
  · intro i hi
    rw [hok] at hi
    cases hi
    obtain ⟨-, -, -, -, ha5, ha6, ha7⟩ := hval
    refine ⟨rfl, rfl, rfl, rfl, rfl, rfl, rfl, rfl, rfl, rfl, ?_, ?_, ?_⟩
    · intro ha
      show r.alternativeIrrPct =
        some (if r.hasAlternatives then r.alternativeIrrPct.getD 0 else 0)
      rw [ha, if_pos rfl]
      exact opt_eq_some_getD _ 0 (ha5 ha)
    · intro hr
      obtain ⟨hc, ht, hn', hw, -⟩ := ha6 hr
      refine ⟨?_, ?_, ?_, ?_⟩
      · show r.currentFundIrrPct =
          some (if r.raisingSoon then r.currentFundIrrPct.getD 0 else 0)
        rw [hr, if_pos rfl]
        exact opt_eq_some_getD _ 0 hc
      · show r.targetQuartileCutoffPct =
          some (if r.raisingSoon then r.targetQuartileCutoffPct.getD 0 else 0)
        rw [hr, if_pos rfl]
        exact opt_eq_some_getD _ 0 ht
      · show r.fundNav = some (if r.raisingSoon then r.fundNav.getD 0 else 0)
        rw [hr, if_pos rfl]
        exact opt_eq_some_getD _ 0 hn'
      · show r.wouldDragIrr =
          some (if r.raisingSoon then r.wouldDragIrr.getD false else false)
        rw [hr, if_pos rfl]
        exact opt_eq_some_getD _ false hw
    · intro hp
      obtain ⟨hne, -, -⟩ := ha7 hp
      show r.downsideRiskPct =
        some (if r.peakMarket then r.downsideRiskPct.getD 0 else 0)
      rw [hp, if_pos rfl]
      exact opt_eq_some_getD _ 0 hne

/-- Witness for C8 at the out-of-range raw input `rBad`
(`forwardIrrPct = 40`): validation fails and `evaluateRaw` is an error. -/
theorem C8_validation_witness :
    ¬ RawValid rBad ∧ (∃ e, evaluateRaw rBad = Except.error e) :=
  ⟨by norm_num [RawValid, rBad],
   (C8_validation rBad).1 (by norm_num [RawValid, rBad])⟩

/-- C9 counterexample: `c9A` and its variant with `current_fund_irr` changed
from 19 to 30 are both valid, differ only in a conditional field read only
by rule 2, and both fire at rule 0 with identical decisions — yet the full
rendered result differs, because the Question 2 expander recomputes the
materiality figures regardless of the firing rule.  This contradicts the
claim that the reported rule outcomes are left unchanged. -/
theorem C9_counterexample :
    Valid c9A ∧ Valid (setCurrentFundIrr c9A 30) ∧
    (evaluate c9A).question = 0 ∧
    (evaluate (setCurrentFundIrr c9A 30)).question = 0 ∧
    evaluate (setCurrentFundIrr c9A 30) = evaluate c9A ∧
    buildResult (setCurrentFundIrr c9A 30) ≠ buildResult c9A := by
  refine ⟨?_, ?_, ?_, ?_, ?_, ?_⟩
  · norm_num [Valid, c9A, scenarioM, scenarioC]; decide
  · norm_num [Valid, setCurrentFundIrr, c9A, scenarioM, scenarioC]; decide
  · norm_num [evaluate, cond0, c9A, scenarioM, scenarioC]
  · norm_num [evaluate, cond0, setCurrentFundIrr, c9A, scenarioM, scenarioC]
  · norm_num [evaluate, cond0, setCurrentFundIrr, c9A, scenarioM, scenarioC]
  · have hft : (FundType.commingled = FundType.separateAccount) = False :=
      eq_false (by decide)
    norm_num [buildResult, evaluate, report0, report1, report2, report3,
      report4, report5, cond0, cond1, cond2, cond3, cond4, is_material,
      asset_pct_of_nav, irr_drag_bps, two_year_gains, spread,
      economic_threshold, asset_type, setCurrentFundIrr, c9A, scenarioM,
      scenarioC, hft]

/-- C9 amended: the decision chain itself is short-circuiting.  For every
conditional field, changing it while the firing rule is strictly below the
index of the only rule that reads it leaves the chain result (decision,
driver and firing rule) unchanged: `current_fund_irr`,
`target_quartile_cutoff`, `fund_nav` and `would_drag_irr` (read only by
rule 2) at firing rule below 2, `downside_risk` (read only by rule 3) at
firing rule below 3, and `alternative_irr` (read only by rule 4) at firing
rule below 4.  Changing a conditional field whose guard is false (the four
fundraising fields when `raising_soon` is false, `downside_risk` when
`peak_market` is false, `alternative_irr` when `has_alternatives` is false)
leaves even the full rendered result unchanged.  But, per
`C9_counterexample`, the per-rule breakdown recomputes later rules' figures,
so the reported outcomes of rules after the firing one may change. -/
theorem C9_short_circuit (i : DecisionInput) (v : ℚ) (b : Bool) :
    ((evaluate i).question < 2 → evaluate (setCurrentFundIrr i v) = evaluate i) ∧
    ((evaluate i).question < 2 → evaluate (setTargetQuartileCutoff i v) = evaluate i) ∧
    ((evaluate i).question < 2 → evaluate (setFundNav i v) = evaluate i) ∧
    ((evaluate i).question < 2 → evaluate (setWouldDragIrr i b) = evaluate i) ∧
    ((evaluate i).question < 3 → evaluate (setDownsideRisk i v) = evaluate i) ∧
    ((evaluate i).question < 4 → evaluate (setAlternativeIrr i v) = evaluate i) ∧
    (i.raising_soon = false → buildResult (setCurrentFundIrr i v) = buildResult i) ∧
    (i.raising_soon = false → buildResult (setTargetQuartileCutoff i v) = buildResult i) ∧
    (i.raising_soon = false → buildResult (setFundNav i v) = buildResult i) ∧
    (i.raising_soon = false → buildResult (setWouldDragIrr i b) = buildResult i) ∧
    (i.peak_market = false → buildResult (setDownsideRisk i v) = buildResult i) ∧
    (i.has_alternatives = false → buildResult (setAlternativeIrr i v) = buildResult i) := by
  refine ⟨fun hq => evaluate_congr2 i _ Iff.rfl Iff.rfl hq,
    fun hq => evaluate_congr2 i _ Iff.rfl Iff.rfl hq,
    fun hq => evaluate_congr2 i _ Iff.rfl Iff.rfl hq,
    fun hq => evaluate_congr2 i _ Iff.rfl Iff.rfl hq,
    fun hq => evaluate_congr3 i _ Iff.rfl Iff.rfl Iff.rfl hq,
    fun hq => evaluate_congr4 i _ Iff.rfl Iff.rfl Iff.rfl Iff.rfl hq,
    fun hp => ?_, fun hp => ?_, fun hp => ?_, fun hp => ?_, fun hp => ?_,
    fun hp => ?_⟩
  · simp [buildResult, evaluate, report0, report1, report2, report3, report4,
      report5, cond0, cond1, cond2, cond3, cond4, is_material,
      asset_pct_of_nav, irr_drag_bps, two_year_gains, spread,
      economic_threshold, asset_type, setCurrentFundIrr, hp]
  · simp [buildResult, evaluate, report0, report1, report2, report3, report4,
      report5, cond0, cond1, cond2, cond3, cond4, is_material,
      asset_pct_of_nav, irr_drag_bps, two_year_gains, spread,
      economic_threshold, asset_type, setTargetQuartileCutoff, hp]
  · simp [buildResult, evaluate, report0, report1, report2, report3, report4,
      report5, cond0, cond1, cond2, cond3, cond4, is_material,
      asset_pct_of_nav, irr_drag_bps, two_year_gains, spread,
      economic_threshold, asset_type, setFundNav, hp]
  · simp [buildResult, evaluate, report0, report1, report2, report3, report4,
      report5, cond0, cond1, cond2, cond3, cond4, is_material,
      asset_pct_of_nav, irr_drag_bps, two_year_gains, spread,
      economic_threshold, asset_type, setWouldDragIrr, hp]
  · simp [buildResult, evaluate, report0, report1, report2, report3, report4,
      report5, cond0, cond1, cond2, cond3, cond4, is_material,
      asset_pct_of_nav, irr_drag_bps, two_year_gains, spread,
      economic_threshold, asset_type, setDownsideRisk, hp]
  · simp [buildResult, evaluate, report0, report1, report2, report3, report4,
      report5, cond0, cond1, cond2, cond3, cond4, is_material,
      asset_pct_of_nav, irr_drag_bps, two_year_gains, spread,
      economic_threshold, asset_type, setAlternativeIrr, hp]

/-- Witness for the amended C9 at spec scenario A: rule 0 fires and every
guard is off, so every clause applies — varying each conditional field
leaves the chain result unchanged, and each guard-false variation leaves
the whole rendered result unchanged. -/
theorem C9_short_circuit_witness :
    (evaluate scenarioA).question < 2 ∧ scenarioA.raising_soon = false ∧
    scenarioA.peak_market = false ∧ scenarioA.has_alternatives = false ∧
    evaluate (setCurrentFundIrr scenarioA 7) = evaluate scenarioA ∧
    evaluate (setTargetQuartileCutoff scenarioA 7) = evaluate scenarioA ∧
    evaluate (setFundNav scenarioA 7) = evaluate scenarioA ∧
    evaluate (setWouldDragIrr scenarioA true) = evaluate scenarioA ∧
    evaluate (setDownsideRisk scenarioA 7) = evaluate scenarioA ∧
    evaluate (setAlternativeIrr scenarioA 7) = evaluate scenarioA ∧
    buildResult (setCurrentFundIrr scenarioA 7) = buildResult scenarioA ∧
    buildResult (setTargetQuartileCutoff scenarioA 7) = buildResult scenarioA ∧
    buildResult (setFundNav scenarioA 7) = buildResult scenarioA ∧
    buildResult (setWouldDragIrr scenarioA true) = buildResult scenarioA ∧
    buildResult (setDownsideRisk scenarioA 7) = buildResult scenarioA ∧
    buildResult (setAlternativeIrr scenarioA 7) = buildResult scenarioA := by
  obtain ⟨a1, a2, a3, a4, a5, a6, b1, b2, b3, b4, b5, b6⟩ :=
    C9_short_circuit scenarioA 7 true
  have hq2 : (evaluate scenarioA).question < 2 := by
    norm_num [evaluate, cond0, scenarioA, scenarioC]
  have hq3 : (evaluate scenarioA).question < 3 := by
    norm_num [evaluate, cond0, scenarioA, scenarioC]
  have hq4 : (evaluate scenarioA).question < 4 := by
    norm_num [evaluate, cond0, scenarioA, scenarioC]
  exact ⟨hq2, rfl, rfl, rfl, a1 hq2, a2 hq2, a3 hq2, a4 hq2, a5 hq3, a6 hq4,
    b1 rfl, b2 rfl, b3 rfl, b4 rfl, b5 rfl, b6 rfl⟩

/-- C10: with a nonpositive fund NAV the asset-percent-of-NAV term is 0
rather than a division, so the materiality gate reduces to the IRR-drag
comparison alone. -/
theorem C10_guarded_nav (i : DecisionInput) (h : i.fund_nav ≤ 0) :
    asset_pct_of_nav i = 0 ∧ (is_material i ↔ 25 < irr_drag_bps i) := by
  have hz : asset_pct_of_nav i = 0 := by
    unfold asset_pct_of_nav
    rw [if_neg (not_lt.mpr h)]
  refine ⟨hz, ?_⟩
  unfold is_material
  rw [hz]
  constructor
  · rintro (habs | hb)
    · norm_num at habs
    · exact hb
  · exact Or.inr

/-- Witness for C10 at spec scenario C, whose `fund_nav` sentinel is 0. -/
theorem C10_guarded_nav_witness :
    scenarioC.fund_nav ≤ 0 ∧ asset_pct_of_nav scenarioC = 0 ∧
    (is_material scenarioC ↔ 25 < irr_drag_bps scenarioC) :=
  ⟨by norm_num [scenarioC],
   (C10_guarded_nav scenarioC (by norm_num [scenarioC])).1,
   (C10_guarded_nav scenarioC (by norm_num [scenarioC])).2⟩

end FundWaterfall
